import Mathlib

/-!
Shallow embedding of `src/woolly/bp/autocast/backpropagation.py`.

The Python module is a thin orchestration layer over torch: `train` returns a
closure `internal` that runs one training epoch (forward pass under
`autocast(dtype=torch.float16)`, backward pass through a gradient scaler,
optimizer step through the scaler, scaler update, optional scheduler step),
and `test` runs one evaluation pass under `torch.no_grad()`.

Modelling choices:
* Tensors are device-tagged values; `t.to(device)` retags the device.
* A model output is a batch of per-example score rows (`List (List ℚ)`); torch
  `argmax(dim=1)` is the index of the first maximum of a row, and
  `pred.eq(target.view_as(pred)).sum().item()` is the count of rows whose
  argmax equals the target label.
* A loss criterion is given by its per-example loss; the `reduction` argument
  selects the default mean reduction (torch default) or `reduction="sum"`.
* Calls into the framework whose effect this module does not observe
  (moving to a device, `optimizer.zero_grad()`, entering and leaving
  `autocast` and `no_grad` regions, `scaler.scale(loss).backward()`,
  `scaler.step(optimizer)`, `scaler.update()`, `scheduler.step()`) are
  recorded as events in a trace, in program order.
* `torch.cuda.amp.autocast()` with no argument defaults to
  `dtype=torch.float16`, so both regions carry dtype float16; the training
  loop passes it explicitly.
* Python float division raises `ZeroDivisionError` when the divisor is zero,
  so both return expressions are embedded as `Except` values with an explicit
  zero-divisor check, in the left-to-right evaluation order of the tuple.
* The module-level `torch.manual_seed(1)` call only touches framework RNG
  state and is not modelled.
-/

namespace Woolly

variable {α : Type} {β : Type}

/-- Device-tagged tensor: a value together with the device it lives on.
`Tensor.to` models `tensor.to(device)`. -/
structure Tensor (α : Type) where
  val : α
  device : String
deriving DecidableEq

def Tensor.to (t : Tensor α) (dev : String) : Tensor α :=
  Tensor.mk t.val dev

/-- Model output: a batch of per-example score rows. -/
abbrev Logits := List (List ℚ)

def argmaxAux : List ℚ → Nat → Nat → ℚ → Nat
  | [], _, best, _ => best
  | x :: xs, i, best, bestVal =>
    if bestVal < x then argmaxAux xs (i + 1) i x else argmaxAux xs (i + 1) best bestVal

/-- Index of the first maximum entry of a row: torch `argmax(dim=1)` on one row. -/
def argmaxIdx : List ℚ → Nat
  | [] => 0
  | x :: xs => argmaxAux xs 1 0 x

/-- Count of rows whose argmax equals the target label:
`pred.eq(target.view_as(pred)).sum().item()` where `pred = output.argmax(dim=1, keepdim=True)`. -/
def countCorrect : Logits → List Nat → Nat
  | [], _ => 0
  | _ :: _, [] => 0
  | row :: rows, t :: ts => (if argmaxIdx row = t then 1 else 0) + countCorrect rows ts

/-- Reduction mode of a torch loss criterion. -/
inductive Reduction
  | mean
  | sum
deriving DecidableEq

/-- A torch loss criterion, given by its per-example loss on one score row and
one target label. -/
structure Criteria where
  perExample : List ℚ → Nat → ℚ

/-- Sum of per-example losses over a batch. -/
def sumLossList (c : Criteria) : Logits → List Nat → ℚ
  | [], _ => 0
  | _ :: _, [] => 0
  | row :: rows, t :: ts => c.perExample row t + sumLossList c rows ts

/-- Applying a criterion: `criteria(output, target)` uses the torch default
mean reduction, `criteria(output, target, reduction="sum")` sums. -/
def Criteria.call (c : Criteria) (out : Logits) (target : List Nat) : Reduction → ℚ
  | Reduction.sum => sumLossList c out target
  | Reduction.mean => sumLossList c out target / (out.length : ℚ)

/-- Floating dtypes relevant to the autocast regions. -/
inductive DType
  | float16
  | float32
deriving DecidableEq

/-- Observable framework calls made by the two loops, recorded in program
order. `forwardCall` records the tensor passed to the model and the dropout
argument (`none` when the model is called as `model(data)` with no second
argument). `autocastBegin` records the dtype of the region entered. -/
inductive Event (α : Type)
  | toDevice (dev : String)
  | zeroGrad
  | autocastBegin (dtype : DType)
  | forwardCall (data : Tensor α) (dropoutArg : Option Bool)
  | lossCall (red : Reduction)
  | autocastEnd
  | backwardScaled
  | scalerStep
  | scalerUpdate
  | schedulerStep
  | noGradBegin
  | noGradEnd

/-- Opaque optimizer handle; its mutations happen inside the framework and are
visible here only as trace events. -/
structure Optimizer where
  steps : Nat

/-- Opaque gradient-scaler handle (`torch.cuda.amp.GradScaler`). -/
structure Scaler where
  scaleVal : ℚ

/-- Opaque learning-rate scheduler handle. -/
structure Scheduler where
  lastLr : ℚ

/-- Python exceptions reachable from this module. -/
inductive PyError
  | zeroDivisionError
deriving DecidableEq

/-- A torch model: parameter store, train or eval mode flag, and the forward
function. The forward function receives the input tensor and the optional
dropout argument (`model(data, dropout)` passes `some dropout`, `model(data)`
passes `none`). -/
structure Model (α : Type) where
  params : List ℚ
  training : Bool
  forward : Tensor α → Option Bool → Logits

/-- A torch DataLoader: its batches (each a data tensor and a label tensor)
and the size of the underlying dataset. `len(loader)` is the number of
batches; `len(loader.dataset)` is `datasetSize`. -/
structure Loader (α : Type) where
  batches : List (Tensor α × Tensor (List Nat))
  datasetSize : Nat

/-- Events emitted by one iteration of the training loop, in the order the
statements execute: `data.to / target.to`, `optimizer.zero_grad()`, enter
`autocast(dtype=torch.float16)`, `model(data, dropout)`,
`criteria(output, target)`, leave autocast, `scaler.scale(loss).backward()`,
`scaler.step(optimizer)`, `scaler.update()`, and `scheduler.step()` when a
scheduler was passed (`if scheduler:`). -/
def batchEvents (device : String) (data : Tensor α) (dropout : Bool) (hasSched : Bool) :
    List (Event α) :=
  [Event.toDevice device, Event.zeroGrad, Event.autocastBegin DType.float16,
   Event.forwardCall data (some dropout), Event.lossCall Reduction.mean, Event.autocastEnd,
   Event.backwardScaled, Event.scalerStep, Event.scalerUpdate]
  ++ (if hasSched then [Event.schedulerStep] else [])

/-- The `for data, target in train_loader` loop of `internal`, with the
running `epoch_loss`, `correct` accumulators and the trace accumulated so
far. Each iteration moves the batch to the device, computes the forward pass
and the mean-reduced loss, and accumulates `loss.item()` into `epoch_loss`
and the correct-prediction count into `correct`. -/
def internalLoop (model : Model α) (batches : List (Tensor α × Tensor (List Nat)))
    (criteria : Criteria) (dropout : Bool) (device : String) (hasSched : Bool)
    (epoch_loss : ℚ) (correct : Nat) (tr : List (Event α)) : ℚ × Nat × List (Event α) :=
  match batches with
  | [] => (epoch_loss, correct, tr)
  | (data0, target0) :: rest =>
    let data := data0.to device
    let target := target0.to device
    let output := model.forward data (some dropout)
    let loss := criteria.call output target.val Reduction.mean
    let pred_correct := countCorrect output target.val
    internalLoop model rest criteria dropout device hasSched
      (epoch_loss + loss) (correct + pred_correct)
      (tr ++ batchEvents device data dropout hasSched)

/-- The body of `internal` before the return statement: `model.train()` sets
the training flag, then the loop runs from zeroed accumulators. `if
scheduler:` is Python truthiness, which for an `Option` scheduler is
`isSome`. -/
def internalRun (model : Model α) (train_loader : Loader α) (criteria : Criteria)
    (dropout : Bool) (device : String) (scheduler : Option Scheduler) :
    ℚ × Nat × List (Event α) :=
  internalLoop (Model.mk model.params true model.forward) train_loader.batches criteria
    dropout device scheduler.isSome 0 0 []

/-- The closure returned by `train`: runs one epoch and returns
`(epoch_loss / len(train_loader), 100.0 * correct / len(train_loader.dataset))`,
raising `ZeroDivisionError` when a divisor is zero, first division first. -/
def internal (model : Model α) (train_loader : Loader α) (optimizer : Optimizer)
    (criteria : Criteria) (dropout : Bool) (device : String) (scaler : Scaler)
    (scheduler : Option Scheduler) : Except PyError (ℚ × ℚ) :=
  let r := internalRun model train_loader criteria dropout device scheduler
  if train_loader.batches.length = 0 then Except.error PyError.zeroDivisionError
  else if train_loader.datasetSize = 0 then Except.error PyError.zeroDivisionError
  else
    Except.ok (r.1 / (train_loader.batches.length : ℚ),
      100 * (r.2.1 : ℚ) / (train_loader.datasetSize : ℚ))

/-- Trace of framework events of one `internal` run. -/
def internalTrace (model : Model α) (train_loader : Loader α) (optimizer : Optimizer)
    (criteria : Criteria) (dropout : Bool) (device : String) (scaler : Scaler)
    (scheduler : Option Scheduler) : List (Event α) :=
  (internalRun model train_loader criteria dropout device scheduler).2.2

/-- `train(use_l1, lambda_l1)` returns the `internal` closure. The closure
captures neither parameter. -/
def train (use_l1 : Bool) (lambda_l1 : ℚ) :
    Model α → Loader α → Optimizer → Criteria → Bool → String → Scaler →
      Option Scheduler → Except PyError (ℚ × ℚ) :=
  fun model train_loader optimizer criteria dropout device scaler scheduler =>
    internal model train_loader optimizer criteria dropout device scaler scheduler

/-- Events emitted by one iteration of the evaluation loop: move to device,
enter `autocast()` (default dtype float16), `model(data)` with no dropout
argument, `criteria(output, target, reduction="sum")`, leave autocast. -/
def testBatchEvents (device : String) (data : Tensor α) : List (Event α) :=
  [Event.toDevice device, Event.autocastBegin DType.float16,
   Event.forwardCall data none, Event.lossCall Reduction.sum, Event.autocastEnd]

/-- The `for data, target in test_loader` loop of `test`, accumulating
`test_loss`, `correct` and the trace. -/
def testLoop (model : Model α) (batches : List (Tensor α × Tensor (List Nat)))
    (criteria : Criteria) (device : String)
    (test_loss : ℚ) (correct : Nat) (tr : List (Event α)) : ℚ × Nat × List (Event α) :=
  match batches with
  | [] => (test_loss, correct, tr)
  | (data0, target0) :: rest =>
    let data := data0.to device
    let target := target0.to device
    let output := model.forward data none
    let batch_loss := criteria.call output target.val Reduction.sum
    testLoop model rest criteria device
      (test_loss + batch_loss) (correct + countCorrect output target.val)
      (tr ++ testBatchEvents device data)

/-- The body of `test` before the return statement: `model.eval()` clears the
training flag, then the loop runs inside `torch.no_grad()`. Returns the
final model, `test_loss`, `correct`, and the trace. -/
def testRun (model : Model α) (test_loader : Loader α) (criteria : Criteria)
    (device : String) : Model α × ℚ × Nat × List (Event α) :=
  let m := Model.mk model.params false model.forward
  let r := testLoop m test_loader.batches criteria device 0 0 []
  (m, r.1, r.2.1, Event.noGradBegin :: (r.2.2 ++ [Event.noGradEnd]))

/-- `test(model, test_loader, criteria, device)`: returns
`(test_loss / len(test_loader.dataset), 100.0 * correct / len(test_loader.dataset))`,
raising `ZeroDivisionError` when the dataset is empty. -/
def test (model : Model α) (test_loader : Loader α) (criteria : Criteria)
    (device : String) : Except PyError (ℚ × ℚ) :=
  let r := testRun model test_loader criteria device
  if test_loader.datasetSize = 0 then Except.error PyError.zeroDivisionError
  else
    Except.ok (r.2.1 / (test_loader.datasetSize : ℚ),
      100 * (r.2.2.1 : ℚ) / (test_loader.datasetSize : ℚ))

/-- Trace of framework events of one `test` run. -/
def testTrace (model : Model α) (test_loader : Loader α) (criteria : Criteria)
    (device : String) : List (Event α) :=
  (testRun model test_loader criteria device).2.2.2

/-! Claim-side helper functions. -/

/-- Loss contributed by one batch of the training loop. -/
def trainBatchLoss (m : Model α) (crit : Criteria) (dropout : Bool) (dev : String)
    (b : Tensor α × Tensor (List Nat)) : ℚ :=
  crit.call (m.forward (b.1.to dev) (some dropout)) (b.2.to dev).val Reduction.mean

/-- Correct-prediction count contributed by one batch of the training loop. -/
def trainBatchCorrect (m : Model α) (dropout : Bool) (dev : String)
    (b : Tensor α × Tensor (List Nat)) : Nat :=
  countCorrect (m.forward (b.1.to dev) (some dropout)) (b.2.to dev).val

/-- Loss contributed by one batch of the evaluation loop (sum reduction). -/
def testBatchLoss (m : Model α) (crit : Criteria) (dev : String)
    (b : Tensor α × Tensor (List Nat)) : ℚ :=
  crit.call (m.forward (b.1.to dev) none) (b.2.to dev).val Reduction.sum

/-- Correct-prediction count contributed by one batch of the evaluation loop. -/
def testBatchCorrect (m : Model α) (dev : String)
    (b : Tensor α × Tensor (List Nat)) : Nat :=
  countCorrect (m.forward (b.1.to dev) none) (b.2.to dev).val

/-- Concatenation of per-batch event blocks. -/
def eventsOfBatches (f : Tensor α × Tensor (List Nat) → List (Event α)) :
    List (Tensor α × Tensor (List Nat)) → List (Event α)
  | [] => []
  | b :: rest => f b ++ eventsOfBatches f rest

/-- Sum of a rational-valued function over a list. -/
def sumQ (f : β → ℚ) : List β → ℚ
  | [] => 0
  | b :: rest => f b + sumQ f rest

/-- Sum of a natural-valued function over a list. -/
def sumN (f : β → Nat) : List β → Nat
  | [] => 0
  | b :: rest => f b + sumN f rest

/-- Number of events satisfying a predicate. -/
def countE (p : Event α → Bool) : List (Event α) → Nat
  | [] => 0
  | e :: es => (if p e then 1 else 0) + countE p es

def isSchedStep : Event α → Bool
  | Event.schedulerStep => true
  | _ => false

def isZeroGrad : Event α → Bool
  | Event.zeroGrad => true
  | _ => false

def isBackward : Event α → Bool
  | Event.backwardScaled => true
  | _ => false

/-- Events that mutate model parameters, optimizer, scaler or scheduler
state. -/
def isMutEvent : Event α → Bool
  | Event.zeroGrad => true
  | Event.backwardScaled => true
  | Event.scalerStep => true
  | Event.scalerUpdate => true
  | Event.schedulerStep => true
  | _ => false

/-- Trace with all scheduler-step events removed. -/
def eraseSchedSteps : List (Event α) → List (Event α)
  | [] => []
  | Event.schedulerStep :: es => eraseSchedSteps es
  | e :: es => e :: eraseSchedSteps es

/-- Checks, carrying the ambient autocast dtype (`none` means outside any
autocast region), that every forward and loss call happens inside an
autocast region of dtype float16 and that every backward, scaler-step and
scaler-update call happens outside any autocast region. -/
def trainAutocastOk : List (Event α) → Option DType → Bool
  | [], _ => true
  | Event.autocastBegin dt :: es, _ => trainAutocastOk es (some dt)
  | Event.autocastEnd :: es, _ => trainAutocastOk es none
  | Event.forwardCall _ _ :: es, c => decide (c = some DType.float16) && trainAutocastOk es c
  | Event.lossCall _ :: es, c => decide (c = some DType.float16) && trainAutocastOk es c
  | Event.backwardScaled :: es, c => decide (c = none) && trainAutocastOk es c
  | Event.scalerStep :: es, c => decide (c = none) && trainAutocastOk es c
  | Event.scalerUpdate :: es, c => decide (c = none) && trainAutocastOk es c
  | _ :: es, c => trainAutocastOk es c

/-- Checks, carrying whether a `no_grad` region is active, that every forward
and loss call happens inside a `no_grad` region. -/
def noGradOk : List (Event α) → Bool → Bool
  | [], _ => true
  | Event.noGradBegin :: es, _ => noGradOk es true
  | Event.noGradEnd :: es, _ => noGradOk es false
  | Event.forwardCall _ _ :: es, g => g && noGradOk es g
  | Event.lossCall _ :: es, g => g && noGradOk es g
  | _ :: es, g => noGradOk es g

/-- Returns true when some backward pass runs without a `zero_grad` since the
previous backward pass; the Boolean argument is whether gradients are
currently freshly zeroed. -/
def staleBackward : List (Event α) → Bool → Bool
  | [], _ => false
  | Event.zeroGrad :: es, _ => staleBackward es true
  | Event.backwardScaled :: es, fresh => !fresh || staleBackward es false
  | _ :: es, fresh => staleBackward es fresh

/-- For each forward call of a trace, its dropout argument and the ambient
autocast dtype. -/
def forwardDescriptors : List (Event α) → Option DType → List (Option Bool × Option DType)
  | [], _ => []
  | Event.autocastBegin dt :: es, _ => forwardDescriptors es (some dt)
  | Event.autocastEnd :: es, _ => forwardDescriptors es none
  | Event.forwardCall _ d :: es, c => (d, c) :: forwardDescriptors es c
  | _ :: es, c => forwardDescriptors es c

/-- The input tensors passed to the model, in order of the forward calls. -/
def forwardInputs : List (Event α) → List (Tensor α)
  | [] => []
  | Event.forwardCall data _ :: es => data :: forwardInputs es
  | _ :: es => forwardInputs es

/-! Concrete instances used by closed witness and counterexample theorems. -/

/-- Concrete model over a unit input type: two-class output, row `i` peaking
at class `i`. -/
def wModel : Model Unit :=
  Model.mk [1] true (fun _ _ => [[1, 0], [0, 1]])

/-- Concrete loader: one batch of two examples with labels 0 and 1, dataset
size 2. -/
def wLoader : Loader Unit :=
  Loader.mk [(Tensor.mk () "meta", Tensor.mk [0, 1] "meta")] 2

/-- Concrete criterion: per-example loss `t + 1`. -/
def wCrit : Criteria :=
  Criteria.mk (fun _ t => (t : ℚ) + 1)

def wOpt : Optimizer := Optimizer.mk 0

def wScaler : Scaler := Scaler.mk 1

/-! Master lemmas characterising the two loops. -/

theorem internalLoop_eq (m : Model α) (batches : List (Tensor α × Tensor (List Nat)))
    (crit : Criteria) (dr : Bool) (dev : String) (hs : Bool)
    (el : ℚ) (c : Nat) (tr : List (Event α)) :
    internalLoop m batches crit dr dev hs el c tr =
      (el + sumQ (trainBatchLoss m crit dr dev) batches,
       c + sumN (trainBatchCorrect m dr dev) batches,
       tr ++ eventsOfBatches (fun b => batchEvents dev (b.1.to dev) dr hs) batches) := by
  induction batches generalizing el c tr with
  | nil => simp [internalLoop, sumQ, sumN, eventsOfBatches]
  | cons b rest ih =>
    cases b with
    | mk d0 t0 =>
      simp [internalLoop, ih, sumQ, sumN, eventsOfBatches, trainBatchLoss, trainBatchCorrect,
        add_assoc, List.append_assoc]

theorem testLoop_eq (m : Model α) (batches : List (Tensor α × Tensor (List Nat)))
    (crit : Criteria) (dev : String)
    (tl : ℚ) (c : Nat) (tr : List (Event α)) :
    testLoop m batches crit dev tl c tr =
      (tl + sumQ (testBatchLoss m crit dev) batches,
       c + sumN (testBatchCorrect m dev) batches,
       tr ++ eventsOfBatches (fun b => testBatchEvents dev (b.1.to dev)) batches) := by
  induction batches generalizing tl c tr with
  | nil => simp [testLoop, sumQ, sumN, eventsOfBatches]
  | cons b rest ih =>
    cases b with
    | mk d0 t0 =>
      simp [testLoop, ih, sumQ, sumN, eventsOfBatches, testBatchLoss, testBatchCorrect,
        add_assoc, List.append_assoc]

theorem internalTrace_eq (model : Model α) (loader : Loader α) (opt : Optimizer)
    (crit : Criteria) (dropout : Bool) (device : String) (scaler : Scaler)
    (scheduler : Option Scheduler) :
    internalTrace model loader opt crit dropout device scaler scheduler =
      eventsOfBatches (fun b => batchEvents device (b.1.to device) dropout scheduler.isSome)
        loader.batches := by
  simp [internalTrace, internalRun, internalLoop_eq]

theorem testTrace_eq (model : Model α) (loader : Loader α) (crit : Criteria)
    (device : String) :
    testTrace model loader crit device =
      Event.noGradBegin ::
        (eventsOfBatches (fun b => testBatchEvents device (b.1.to device)) loader.batches
          ++ [Event.noGradEnd]) := by
  simp [testTrace, testRun, testLoop_eq]

theorem trainAutocastOk_batch (dev : String) (data : Tensor α) (dr hs : Bool)
    (rest : List (Event α)) :
    trainAutocastOk (batchEvents dev data dr hs ++ rest) none = trainAutocastOk rest none := by
  cases hs <;> simp [batchEvents, trainAutocastOk]

theorem trainAutocastOk_batches (dev : String) (dr hs : Bool)
    (batches : List (Tensor α × Tensor (List Nat))) :
    trainAutocastOk
      (eventsOfBatches (fun b => batchEvents dev (b.1.to dev) dr hs) batches) none = true := by
  induction batches with
  | nil => simp [eventsOfBatches, trainAutocastOk]
  | cons b rest ih => simpa [eventsOfBatches, trainAutocastOk_batch] using ih

theorem staleBackward_batch (dev : String) (data : Tensor α) (dr hs : Bool)
    (rest : List (Event α)) (f : Bool) :
    staleBackward (batchEvents dev data dr hs ++ rest) f = staleBackward rest false := by
  cases hs <;> simp [batchEvents, staleBackward]

theorem staleBackward_batches (dev : String) (dr hs : Bool)
    (batches : List (Tensor α × Tensor (List Nat))) (f : Bool) :
    staleBackward
      (eventsOfBatches (fun b => batchEvents dev (b.1.to dev) dr hs) batches) f = false := by
  induction batches generalizing f with
  | nil => simp [eventsOfBatches, staleBackward]
  | cons b rest ih => simp [eventsOfBatches, staleBackward_batch, ih]

theorem countE_append (p : Event α → Bool) (l1 l2 : List (Event α)) :
    countE p (l1 ++ l2) = countE p l1 + countE p l2 := by
  induction l1 with
  | nil => simp [countE]
  | cons e es ih => simp [countE, ih, add_assoc]

theorem countE_schedStep_batch (dev : String) (data : Tensor α) (dr hs : Bool) :
    countE isSchedStep (batchEvents dev data dr hs) = if hs then 1 else 0 := by
  cases hs <;> simp [batchEvents, countE, isSchedStep]

theorem countE_schedStep_batches (dev : String) (dr hs : Bool)
    (batches : List (Tensor α × Tensor (List Nat))) :
    countE isSchedStep
        (eventsOfBatches (fun b => batchEvents dev (b.1.to dev) dr hs) batches) =
      if hs then batches.length else 0 := by
  induction batches with
  | nil => cases hs <;> simp [eventsOfBatches, countE]
  | cons b rest ih =>
    cases hs <;>
      simp_all [eventsOfBatches, countE_append, countE_schedStep_batch, Nat.add_comm]

theorem countE_zeroGrad_batch (dev : String) (data : Tensor α) (dr hs : Bool) :
    countE isZeroGrad (batchEvents dev data dr hs) = 1 := by
  cases hs <;> simp [batchEvents, countE, isZeroGrad]

theorem countE_zeroGrad_batches (dev : String) (dr hs : Bool)
    (batches : List (Tensor α × Tensor (List Nat))) :
    countE isZeroGrad
        (eventsOfBatches (fun b => batchEvents dev (b.1.to dev) dr hs) batches) =
      batches.length := by
  induction batches with
  | nil => simp [eventsOfBatches, countE]
  | cons b rest ih =>
    simp [eventsOfBatches, countE_append, countE_zeroGrad_batch, ih, Nat.add_comm]

theorem countE_backward_batch (dev : String) (data : Tensor α) (dr hs : Bool) :
    countE isBackward (batchEvents dev data dr hs) = 1 := by
  cases hs <;> simp [batchEvents, countE, isBackward]

theorem countE_backward_batches (dev : String) (dr hs : Bool)
    (batches : List (Tensor α × Tensor (List Nat))) :
    countE isBackward
        (eventsOfBatches (fun b => batchEvents dev (b.1.to dev) dr hs) batches) =
      batches.length := by
  induction batches with
  | nil => simp [eventsOfBatches, countE]
  | cons b rest ih =>
    simp [eventsOfBatches, countE_append, countE_backward_batch, ih, Nat.add_comm]

theorem eraseSchedSteps_append (l1 l2 : List (Event α)) :
    eraseSchedSteps (l1 ++ l2) = eraseSchedSteps l1 ++ eraseSchedSteps l2 := by
  induction l1 with
  | nil => simp [eraseSchedSteps]
  | cons e es ih => cases e <;> simp [eraseSchedSteps, ih]

theorem eraseSchedSteps_batch (dev : String) (data : Tensor α) (dr : Bool) :
    eraseSchedSteps (batchEvents dev data dr true) = batchEvents dev data dr false := by
  simp [batchEvents, eraseSchedSteps]

theorem eraseSchedSteps_batches (dev : String) (dr : Bool)
    (batches : List (Tensor α × Tensor (List Nat))) :
    eraseSchedSteps
        (eventsOfBatches (fun b => batchEvents dev (b.1.to dev) dr true) batches) =
      eventsOfBatches (fun b => batchEvents dev (b.1.to dev) dr false) batches := by
  induction batches with
  | nil => simp [eventsOfBatches, eraseSchedSteps]
  | cons b rest ih =>
    simp [eventsOfBatches, eraseSchedSteps_append, eraseSchedSteps_batch, ih]

theorem noGradOk_batch (dev : String) (data : Tensor α) (rest : List (Event α)) :
    noGradOk (testBatchEvents dev data ++ rest) true = noGradOk rest true := by
  simp [testBatchEvents, noGradOk]

theorem noGradOk_batches (dev : String)
    (batches : List (Tensor α × Tensor (List Nat))) (rest : List (Event α)) :
    noGradOk
        (eventsOfBatches (fun b => testBatchEvents dev (b.1.to dev)) batches ++ rest) true =
      noGradOk rest true := by
  induction batches with
  | nil => simp [eventsOfBatches]
  | cons b rest2 ih => simp [eventsOfBatches, noGradOk_batch, ih]

theorem countE_mut_testBatch (dev : String) (data : Tensor α) :
    countE isMutEvent (testBatchEvents dev data) = 0 := by
  simp [testBatchEvents, countE, isMutEvent]

theorem countE_mut_testBatches (dev : String)
    (batches : List (Tensor α × Tensor (List Nat))) :
    countE isMutEvent
        (eventsOfBatches (fun b => testBatchEvents dev (b.1.to dev)) batches) = 0 := by
  induction batches with
  | nil => simp [eventsOfBatches, countE]
  | cons b rest ih =>
    simp [eventsOfBatches, countE_append, countE_mut_testBatch, ih]

theorem forwardDescriptors_trainBatch (dev : String) (data : Tensor α) (dr hs : Bool)
    (rest : List (Event α)) :
    forwardDescriptors (batchEvents dev data dr hs ++ rest) none =
      (some dr, some DType.float16) :: forwardDescriptors rest none := by
  cases hs <;> simp [batchEvents, forwardDescriptors]

theorem forwardDescriptors_trainBatches (dev : String) (dr hs : Bool)
    (batches : List (Tensor α × Tensor (List Nat))) :
    forwardDescriptors
        (eventsOfBatches (fun b => batchEvents dev (b.1.to dev) dr hs) batches) none =
      List.replicate batches.length (some dr, some DType.float16) := by
  induction batches with
  | nil => simp [eventsOfBatches, forwardDescriptors]
  | cons b rest ih =>
    simp [eventsOfBatches, forwardDescriptors_trainBatch, ih, List.replicate_succ]

theorem forwardDescriptors_testBatch (dev : String) (data : Tensor α)
    (rest : List (Event α)) :
    forwardDescriptors (testBatchEvents dev data ++ rest) none =
      (none, some DType.float16) :: forwardDescriptors rest none := by
  simp [testBatchEvents, forwardDescriptors]

theorem forwardDescriptors_testBatches (dev : String)
    (batches : List (Tensor α × Tensor (List Nat))) (rest : List (Event α)) :
    forwardDescriptors
        (eventsOfBatches (fun b => testBatchEvents dev (b.1.to dev)) batches ++ rest) none =
      List.replicate batches.length (none, some DType.float16) ++
        forwardDescriptors rest none := by
  induction batches with
  | nil => simp [eventsOfBatches]
  | cons b rest2 ih =>
    simp [eventsOfBatches, forwardDescriptors_testBatch, ih, List.replicate_succ]

theorem forwardInputs_trainBatch (dev : String) (data : Tensor α) (dr hs : Bool)
    (rest : List (Event α)) :
    forwardInputs (batchEvents dev data dr hs ++ rest) = data :: forwardInputs rest := by
  cases hs <;> simp [batchEvents, forwardInputs]

theorem forwardInputs_trainBatches (dev : String) (dr hs : Bool)
    (batches : List (Tensor α × Tensor (List Nat))) :
    forwardInputs
        (eventsOfBatches (fun b => batchEvents dev (b.1.to dev) dr hs) batches) =
      batches.map (fun b => b.1.to dev) := by
  induction batches with
  | nil => simp [eventsOfBatches, forwardInputs]
  | cons b rest ih =>
    simp [eventsOfBatches, forwardInputs_trainBatch, ih]

theorem forwardInputs_testBatch (dev : String) (data : Tensor α)
    (rest : List (Event α)) :
    forwardInputs (testBatchEvents dev data ++ rest) = data :: forwardInputs rest := by
  simp [testBatchEvents, forwardInputs]

theorem forwardInputs_testBatches (dev : String)
    (batches : List (Tensor α × Tensor (List Nat))) (rest : List (Event α)) :
    forwardInputs
        (eventsOfBatches (fun b => testBatchEvents dev (b.1.to dev)) batches ++ rest) =
      batches.map (fun b => b.1.to dev) ++ forwardInputs rest := by
  induction batches with
  | nil => simp [eventsOfBatches]
  | cons b rest2 ih => simp [eventsOfBatches, forwardInputs_testBatch, ih]

theorem testBatchLoss_evalModel (m : Model α) (crit : Criteria) (dev : String) :
    testBatchLoss (Model.mk m.params false m.forward) crit dev =
      testBatchLoss m crit dev := by
  funext b
  rfl

theorem testBatchCorrect_evalModel (m : Model α) (dev : String) :
    testBatchCorrect (Model.mk m.params false m.forward) dev =
      testBatchCorrect m dev := by
  funext b
  rfl

/-! Claim theorems. -/

/-- Claim C1: for every batch yielded by the train loader, the training
function returned by `train` executes, in order: move data and target to the
device, zero the gradients of the optimizer, run the forward pass and compute
the loss, perform a backward pass on the scaled loss via the gradient scaler,
step the optimizer through the scaler, and update the scaler. -/
theorem C1_train_batch_order (model : Model α) (loader : Loader α) (opt : Optimizer)
    (crit : Criteria) (dropout : Bool) (device : String) (scaler : Scaler)
    (scheduler : Option Scheduler) :
    internalTrace model loader opt crit dropout device scaler scheduler =
      eventsOfBatches (fun b =>
        [Event.toDevice device, Event.zeroGrad, Event.autocastBegin DType.float16,
         Event.forwardCall (b.1.to device) (some dropout), Event.lossCall Reduction.mean,
         Event.autocastEnd, Event.backwardScaled, Event.scalerStep, Event.scalerUpdate]
        ++ (if scheduler.isSome then [Event.schedulerStep] else [])) loader.batches := by
  simp [internalTrace_eq, batchEvents]

/-- Claim C2: `test` runs the forward pass and the loss computation inside the
`no_grad` region, and accumulates the batch loss into a running total and the
correct-prediction count into a running count, batch by batch. -/
theorem C2_test_nograd_accumulates (model : Model α) (loader : Loader α) (crit : Criteria)
    (device : String) :
    noGradOk (testTrace model loader crit device) false = true ∧
    (testRun model loader crit device).2.1 =
      sumQ (testBatchLoss model crit device) loader.batches ∧
    (testRun model loader crit device).2.2.1 =
      sumN (testBatchCorrect model device) loader.batches := by
  refine ⟨?_, ?_, ?_⟩
  · rw [testTrace_eq]
    simp [noGradOk, noGradOk_batches]
  · simp [testRun, testLoop_eq, testBatchLoss_evalModel]
  · simp [testRun, testLoop_eq, testBatchCorrect_evalModel]

/-- Claim C3 as stated is false: on a concrete one-batch loader, the forward
invocations of the training loop and of `test` differ, because the training
loop passes the dropout argument and `test` does not. -/
theorem C3_forward_calls_differ :
    forwardDescriptors (internalTrace wModel wLoader wOpt wCrit false "cpu" wScaler none)
        none ≠
      forwardDescriptors (testTrace wModel wLoader wCrit "cpu") none := by
  decide

/-- Claim C3 amended: `test` makes one forward call per batch on the same
device-moved data as the training loop, and both calls run inside an autocast
region of dtype float16 (the default dtype of `autocast()`), but the
invocations are not identical: the training loop passes the dropout argument
while `test` calls the model without it. -/
theorem C3_forward_pass_comparison (model : Model α) (loader : Loader α) (opt : Optimizer)
    (crit : Criteria) (dropout : Bool) (device : String) (scaler : Scaler)
    (scheduler : Option Scheduler) :
    forwardInputs (internalTrace model loader opt crit dropout device scaler scheduler) =
      loader.batches.map (fun b => b.1.to device) ∧
    forwardInputs (testTrace model loader crit device) =
      loader.batches.map (fun b => b.1.to device) ∧
    forwardDescriptors (internalTrace model loader opt crit dropout device scaler scheduler)
        none =
      List.replicate loader.batches.length (some dropout, some DType.float16) ∧
    forwardDescriptors (testTrace model loader crit device) none =
      List.replicate loader.batches.length (none, some DType.float16) := by
  refine ⟨?_, ?_, ?_, ?_⟩
  · rw [internalTrace_eq]
    exact forwardInputs_trainBatches device dropout _ loader.batches
  · rw [testTrace_eq]
    simp [forwardInputs, forwardInputs_testBatches]
  · rw [internalTrace_eq]
    exact forwardDescriptors_trainBatches device dropout _ loader.batches
  · rw [testTrace_eq]
    simp [forwardDescriptors, forwardDescriptors_testBatches]

/-- Claim C4: for a test loader over a non-empty dataset, `test` returns the
summed per-example loss divided by the dataset size and one hundred times the
correct-prediction count divided by the dataset size. -/
theorem C4_per_example_stats (model : Model α) (loader : Loader α) (crit : Criteria)
    (device : String) (h : loader.datasetSize ≠ 0) :
    test model loader crit device =
      Except.ok
        (sumQ (testBatchLoss model crit device) loader.batches / (loader.datasetSize : ℚ),
         100 * (sumN (testBatchCorrect model device) loader.batches : ℚ) /
           (loader.datasetSize : ℚ)) := by
  simp [test, testRun, testLoop_eq, testBatchLoss_evalModel, testBatchCorrect_evalModel, h]

/-- Witness for claim C4 on a concrete model, loader and criterion. -/
theorem C4_per_example_stats_witness :
    test wModel wLoader wCrit "cpu" = Except.ok ((3 : ℚ) / 2, (100 : ℚ)) := by
  have h := C4_per_example_stats wModel wLoader wCrit "cpu" (by decide)
  rw [h]
  norm_num [wModel, wLoader, wCrit, sumQ, sumN, testBatchLoss, testBatchCorrect,
    Criteria.call, sumLossList, countCorrect, argmaxIdx, argmaxAux, Tensor.to]

/-- Claim C5: the scheduler is stepped exactly once per batch when one is
provided and never when it is `None`, and nothing else depends on it: erasing
the scheduler steps from the trace of a run with a scheduler yields the trace
of the run without one, and the returned statistics coincide. -/
theorem C5_scheduler_frame (model : Model α) (loader : Loader α) (opt : Optimizer)
    (crit : Criteria) (dropout : Bool) (device : String) (scaler : Scaler)
    (s : Scheduler) :
    countE isSchedStep (internalTrace model loader opt crit dropout device scaler (some s)) =
      loader.batches.length ∧
    countE isSchedStep (internalTrace model loader opt crit dropout device scaler none) =
      0 ∧
    eraseSchedSteps (internalTrace model loader opt crit dropout device scaler (some s)) =
      internalTrace model loader opt crit dropout device scaler none ∧
    internal model loader opt crit dropout device scaler (some s) =
      internal model loader opt crit dropout device scaler none := by
  refine ⟨?_, ?_, ?_, ?_⟩
  · rw [internalTrace_eq]
    simpa using countE_schedStep_batches device dropout true loader.batches
  · rw [internalTrace_eq]
    simpa using countE_schedStep_batches device dropout false loader.batches
  · rw [internalTrace_eq, internalTrace_eq]
    simpa using eraseSchedSteps_batches device dropout loader.batches
  · simp [internal, internalRun, internalLoop_eq]

/-- Claim C6: in the training loop, every forward pass and loss computation
runs inside an autocast region of dtype float16, and every backward pass,
scaler-mediated optimizer step and scaler update runs outside any autocast
region. -/
theorem C6_autocast_region (model : Model α) (loader : Loader α) (opt : Optimizer)
    (crit : Criteria) (dropout : Bool) (device : String) (scaler : Scaler)
    (scheduler : Option Scheduler) :
    trainAutocastOk (internalTrace model loader opt crit dropout device scaler scheduler)
        none = true := by
  rw [internalTrace_eq]
  exact trainAutocastOk_batches device dropout _ loader.batches

/-- Claim C7: `test` leaves the model parameters and forward function
untouched (it only clears the training flag), and its trace contains no
gradient-zeroing, backward, optimizer-step, scaler or scheduler event. -/
theorem C7_test_preserves_model (model : Model α) (loader : Loader α) (crit : Criteria)
    (device : String) :
    (testRun model loader crit device).1.params = model.params ∧
    (testRun model loader crit device).1.forward = model.forward ∧
    (testRun model loader crit device).1.training = false ∧
    countE isMutEvent (testTrace model loader crit device) = 0 := by
  refine ⟨rfl, rfl, rfl, ?_⟩
  rw [testTrace_eq]
  simp [countE, countE_append, countE_mut_testBatches, isMutEvent]

/-- Claim C8: the parameters `use_l1` and `lambda_l1` of `train` are never
used: the returned training closures are definitionally equal for any two
pairs of values. -/
theorem C8_l1_parameters_unused (a1 a2 : Bool) (b1 b2 : ℚ) :
    @train α a1 b1 = @train α a2 b2 := rfl

/-- Claim C9: in the training loop, gradients are zeroed exactly once per
batch, there is one backward pass per batch, and no backward pass ever runs
without a gradient zeroing since the previous backward pass. -/
theorem C9_zero_grad_precedes_backward (model : Model α) (loader : Loader α)
    (opt : Optimizer) (crit : Criteria) (dropout : Bool) (device : String)
    (scaler : Scaler) (scheduler : Option Scheduler) :
    staleBackward (internalTrace model loader opt crit dropout device scaler scheduler)
        false = false ∧
    countE isZeroGrad (internalTrace model loader opt crit dropout device scaler scheduler) =
      loader.batches.length ∧
    countE isBackward (internalTrace model loader opt crit dropout device scaler scheduler) =
      loader.batches.length := by
  refine ⟨?_, ?_, ?_⟩ <;> rw [internalTrace_eq]
  · exact staleBackward_batches device dropout _ loader.batches false
  · exact countE_zeroGrad_batches device dropout _ loader.batches
  · exact countE_backward_batches device dropout _ loader.batches

/-- Claim C10: the final divisions are unguarded in the source, so the
training closure raises `ZeroDivisionError` exactly when the train loader has
no batch or its dataset no example, and `test` raises it exactly when its
dataset has no example. -/
theorem C10_division_guards (model : Model α) (loader : Loader α) (opt : Optimizer)
    (crit : Criteria) (dropout : Bool) (device : String) (scaler : Scaler)
    (scheduler : Option Scheduler) (model2 : Model α) (loader2 : Loader α)
    (crit2 : Criteria) (device2 : String) :
    (internal model loader opt crit dropout device scaler scheduler =
        Except.error PyError.zeroDivisionError ↔
      loader.batches.length = 0 ∨ loader.datasetSize = 0) ∧
    (test model2 loader2 crit2 device2 = Except.error PyError.zeroDivisionError ↔
      loader2.datasetSize = 0) := by
  constructor
  · simp only [internal]
    split_ifs <;> simp_all
  · simp only [test]
    split_ifs <;> simp_all

end Woolly
